import Mathlib

/-!
Verification of the Authenticator core of the etsi_nbi repository
(src/osm_nbi/auth.py) against its natural-language specification.

The Python code is shallowly embedded: every definition below is a direct
translation of the corresponding function of auth.py (line numbers cited in
comments).  Dictionaries become association lists, exceptions become an
explicit error type, clock reads and random identifiers become explicit
parameters, and the two external capabilities (the identity backend and the
sha256/base64 library calls) become function-valued fields of an environment
record.  Truthiness of Python strings and `None` is modelled explicitly.
-/

/-- Decidable equality of results, for evaluating the theorems below on
concrete inputs. -/
instance {ε α : Type} [DecidableEq ε] [DecidableEq α] :
    DecidableEq (Except ε α) := fun a b =>
  match a, b with
  | .error e1, .error e2 =>
    if h : e1 = e2 then .isTrue (by rw [h]) else .isFalse (by intro hc; cases hc; exact h rfl)
  | .error _, .ok _ => .isFalse (by intro hc; cases hc)
  | .ok _, .error _ => .isFalse (by intro hc; cases hc)
  | .ok v1, .ok v2 =>
    if h : v1 = v2 then .isTrue (by rw [h]) else .isFalse (by intro hc; cases hc; exact h rfl)

namespace OsmNbi

/-! ## Basic Python-modelling helpers

String operations are implemented by structural recursion over the
underlying character lists (rather than through the position-based library
functions) so that every definition evaluates by kernel reduction; each one
models the corresponding Python string operation. -/

/-- Auxiliary loop of `splitOnChar`. -/
def splitOnCharAux (sep : Char) : List Char → List Char → List String
  | [], acc => [String.mk acc.reverse]
  | c :: rest, acc =>
    if c == sep then String.mk acc.reverse :: splitOnCharAux sep rest []
    else splitOnCharAux sep rest (c :: acc)

/-- Python `s.split(sep)` for a one-character separator: empty fields are
kept and the empty string splits to `[""]`. -/
def splitOnChar (s : String) (sep : Char) : List String :=
  splitOnCharAux sep s.data []

/-- Python `big.find(small) == 0`, i.e. `small` is a string prefix of
`big` (the empty string is a prefix of everything). -/
def strIsPre (small big : String) : Bool :=
  small.data.isPrefixOf big.data

/-- Python `c in s` for a single character. -/
def strHasChar (s : String) (c : Char) : Bool := s.data.contains c

/-- Python `s[-1] == ":"` (auth.py:200). -/
def lastIsColon (s : String) : Bool := s.data.getLast? == some ':'

/-- ASCII lowering of one character (the header keywords compared at
auth.py:276-278 are ASCII). -/
def lowerChar (c : Char) : Char :=
  if 'A' ≤ c && c ≤ 'Z' then Char.ofNat (c.toNat + 32) else c

/-- Python `s.lower()` restricted to ASCII. -/
def asciiLower (s : String) : String := String.mk (s.data.map lowerChar)

/-- Python `sep.join(parts)`. -/
def joinWith (sep : String) : List String → String
  | [] => ""
  | [x] => x
  | x :: rest => x ++ sep ++ joinWith sep rest

/-- Truthiness of an optional string: Python treats `None` and `""` as falsy. -/
def truthy : Option String → Bool
  | none => false
  | some s => !(s == "")

/-- Python `s.partition(sep)` restricted to what auth.py uses
(`user, _, passwd = user_passwd.partition(":")`, auth.py:292): the part
before the first separator and the part after it (empty when absent). -/
def pyPartition (s : String) (sep : Char) : String × String :=
  match splitOnChar s sep with
  | [] => (s, "")
  | [x] => (x, "")
  | x :: rest => (x, joinWith (String.mk [sep]) rest)

/-- Python dict assignment `d[k] = v` on an association list: replace the
value of an existing key in place, otherwise append at the end. -/
def dictSet {β : Type} (c : List (String × β)) (k : String) (v : β) :
    List (String × β) :=
  if c.any (fun p => p.1 == k) then
    c.map (fun p => if p.1 == k then (k, v) else p)
  else c ++ [(k, v)]

/-- Python `d.pop(k, None)`: remove the entry for `k` if present
(remove-if-present, never raising), as used at auth.py:498 and :595. -/
def dictPop {β : Type} (c : List (String × β)) (k : String) :
    List (String × β) :=
  c.filter (fun p => !(p.1 == k))

/-! ## Data model (spec section 3, auth.py sessions and stored records) -/

/-- A session (token) record as built by new_token / _internal_new_token
(auth.py:361-375 and :566-572).  The Python dict stores the same value under
both `_id` and `id`; one field models both. -/
structure Session where
  id : String
  issued_at : Nat
  expires : Nat
  project_id : String
  username : String
  remote_port : Nat
  admin : Bool
  remote_host : Option String := none
deriving Repr, DecidableEq

/-- A stored user record (collection `users`, auth.py:529-533):
`password` is the stored shadow hash, `salt` is `_admin.salt`. -/
structure User where
  username : String
  password : String
  salt : String
  projects : List String
deriving Repr, DecidableEq

/-- A stored project record (collection `projects`, auth.py:554, :564-565). -/
structure Project where
  pid : String
  name : String
  admin : Option Bool := none
deriving Repr, DecidableEq

/-- The token info returned by the delegated identity backend
(auth.py:326-369): `_id` and `project_id` are required keys, the others are
read with `.get`. -/
structure TokenInfo where
  id : String
  expires : Option Nat := none
  project_id : String
  username : Option String := none
  project_name : Option String := none
deriving Repr, DecidableEq

/-- The `indata` credential document passed to new_token (auth.py:319). -/
structure Indata where
  username : Option String := none
  password : Option String := none
  project_id : Option String := none
deriving Repr, DecidableEq

/-- The `remote` information passed to new_token (auth.py:368-375). -/
structure RemoteInfo where
  name : Option String := none
  ip : Option String := none
  port : Nat
deriving Repr, DecidableEq

/-- Errors: AuthException carries a message and an http code (authconn.py:32,
default 401); DbException is modelled by its http code; KeyError/IndexError
and similar raw Python exceptions are modelled by pyError. -/
inductive Err where
  | authEx (msg : String) (http_code : Nat)
  | dbEx (http_code : Nat)
  | keyError (key : String)
  | pyError (msg : String)
deriving Repr, DecidableEq

/-- The backend mode, fixed at startup (auth.py:101-104). -/
inductive Mode where
  | internal
  | keystone
deriving Repr, DecidableEq

/-- The `config["global"]` test-bypass settings read at auth.py:516-519. -/
structure GlobalCfg where
  test_user_not_authorized : Option String := none
  test_project_not_authorized : Option String := none
deriving Repr, DecidableEq

/-- What a successful authorization returns: a real session record, or the
fixed fake record substituted by the test bypass (auth.py:517-519; the fake
dict has `id = "fake-token-id-for-test"`, `admin = True` and carries the
configured username and project). -/
inductive AuthzOut where
  | real (s : Session)
  | fake (username : String) (project : String)
deriving Repr, DecidableEq

/-- Trace of which gate-keeping calls authorize made: `validated` records a
call to `backend.validate_token` (auth.py:305), `checked` records a call to
`check_permissions` (auth.py:306). -/
structure Trace where
  validated : Bool := false
  checked : Bool := false
deriving Repr, DecidableEq

/-- Mutable state of the Authenticator: the in-memory token cache, the
persistent collections, the prune clock, and (for the delegated backend) the
trace of tokens passed to `revoke_token`. -/
structure St where
  tokens_cache : List (String × Session) := []
  db_tokens : List Session := []
  db_users : List User := []
  db_projects : List Project := []
  next_db_prune_time : Nat := 0
  backend_revoked : List String := []
deriving Repr, DecidableEq

/-- The static environment: configuration plus the external capabilities.
`backend_auth` models `backend.authenticate`, `backend_valid` models
`backend.validate_token` succeeding, `user_roles` models
`backend.get_user_role_list`, `b64` models `standard_b64decode(..).decode()`
(`none` = raises), `hashF` models `sha256(password + salt).hexdigest()`. -/
structure AuthCall where
  user : Option String
  password : Option String
  token : Option String
  project : Option String
deriving Repr, DecidableEq

structure Env where
  mode : Mode
  global_cfg : GlobalCfg := {}
  mapping : List (String × String) := []
  op_roles : List (String × List String) := []
  user_roles : String → List String := fun _ => []
  backend_valid : String → Bool := fun _ => false
  backend_auth : AuthCall → Except Err TokenInfo := fun _ => .error (.authEx "auth failed" 401)
  b64 : String → Option String := fun _ => none
  hashF : String → String → String := fun _ _ => ""

/-- The http request context consumed by authorize (cherrypy request headers,
session cookie, config flag, method and path, remote peer). -/
structure ReqCtx where
  authorization_header : Option String := none
  session_auth : Option String := none
  allow_basic : Bool := false
  path_info : String
  method : String
  remote : RemoteInfo

/-! ## UrlResolver: `_normalize_url` (auth.py:438-487) -/

/-- First whitespace field of a resource key `"<METHOD> <url>"`
(`key.split()[0]`, auth.py:445; keys use single spaces). -/
def keyMethod (k : String) : String := (splitOnChar k ' ').headD ""

/-- Second whitespace field of a resource key (`key.split()[1]`). -/
def keyUrl (k : String) : String := ((splitOnChar k ' ').drop 1).headD ""

/-- Segments of the key url template (`tmp_key.split()[1].split("/")`,
auth.py:450). -/
def urlSegments (k : String) : List String := splitOnChar (keyUrl k) '/'

/-- Auxiliary check that `needle` occurs as a contiguous sublist of `hay`. -/
def containsSubAux (needle : List Char) : List Char → Bool
  | [] => needle.isEmpty
  | c :: rest => needle.isPrefixOf (c :: rest) || containsSubAux needle rest

/-- Python substring containment `method in key.split()[0]` (auth.py:445). -/
def containsSub (hay needle : String) : Bool :=
  containsSubAux needle.data hay.data

/-- Query stripping and segment split of the request path (auth.py:440-441). -/
def reqSegsOf (url : String) : List String :=
  splitOnChar ((splitOnChar url '?').headD "") '/'

/-- One candidate-survival test at request index `idx` with request segment
`pathPart` (the inner loop body, auth.py:449-467): a candidate whose template
is exhausted is dropped; a placeholder survives unless it sits at the last
request index while the total segment counts differ, except `<artifactPath>`
which survives at its own position unconditionally; a literal must equal the
request segment, with the same trailing-overhang rule. -/
def segKeeps (reqSegs : List String) (idx : Nat) (pathPart : String)
    (k : String) : Bool :=
  let splitted := urlSegments k
  if idx ≥ splitted.length then false
  else
    let s := splitted.getD idx ""
    if strHasChar s '<' && strHasChar s '>' then
      if s == "<artifactPath>" then true
      else if idx == reqSegs.length - 1 && !(reqSegs.length == splitted.length) then false
      else true
    else if s == pathPart then
      if idx == reqSegs.length - 1 && !(reqSegs.length == splitted.length) then false
      else true
    else false

/-- The outer scan loop (auth.py:447-471): filter the candidates at each
request index in turn; break early only when exactly one candidate remains
and the last `/`-field of that whole key is `<artifactPath>`
(auth.py:469-471, `filtered_keys[0].split("/")[-1]`). -/
def scanFrom (reqSegs : List String) : Nat → List String → List String → List String
  | _, [], keys => keys
  | idx, p :: rest, keys =>
    let keys2 := keys.filter (segKeeps reqSegs idx p)
    if keys2.length == 1 && ((splitOnChar (keys2.headD "") '/').getLastD "" == "<artifactPath>") then
      keys2
    else scanFrom reqSegs (idx + 1) rest keys2

/-- The method pre-filter and full scan (auth.py:444-471). -/
def finalKeys (mapping : List (String × String)) (url method : String) :
    List String :=
  let reqSegs := reqSegsOf url
  scanFrom reqSegs 0 reqSegs
    ((mapping.map Prod.fst).filter (fun k => containsSub (keyMethod k) method))

/-- `path_part[1:-1]`: strip the angle brackets of a placeholder. -/
def stripAngles (s : String) : String := String.mk ((s.data.drop 1).dropLast)

/-- The extraction loop over the enumerated template segments
(auth.py:480-485): every placeholder contributes the request segment at its
own index, `<artifactPath>` contributes the remaining request segments
rejoined with `/` (a Python slice, safe past the end).  A non-greedy
placeholder whose index lies beyond the request segments is the Python
IndexError of `normalized_url_splitted[idx]` (auth.py:485); this is
reachable, because the scan breaks early on a sole surviving greedy
candidate (auth.py:469-471) whose template may be longer than the
request. -/
def extractParamsAux (reqSegs : List String) :
    List (Nat × String) → List (String × String) →
    Except Err (List (String × String))
  | [], acc => .ok acc
  | p :: rest, acc =>
    if strHasChar p.2 '<' && strHasChar p.2 '>' then
      if p.2 == "<artifactPath>" then
        extractParamsAux reqSegs rest
          (acc ++ [(stripAngles p.2, joinWith "/" (reqSegs.drop p.1))])
      else
        match reqSegs[p.1]? with
        | some seg => extractParamsAux reqSegs rest (acc ++ [(stripAngles p.2, seg)])
        | none => .error (.pyError "IndexError: list index out of range")
    else extractParamsAux reqSegs rest acc

/-- Parameter extraction from the winning key (auth.py:480-486). -/
def extractParams (reqSegs : List String) (k : String) :
    Except Err (List (String × String)) :=
  extractParamsAux reqSegs (urlSegments k).enum []

/-- `_normalize_url` (auth.py:438-487): zero survivors and multiple survivors
are AuthException failures; a unique survivor is returned with its extracted
parameters, where the extraction itself can raise an uncaught IndexError
(see `extractParamsAux`). -/
def normalize_url (mapping : List (String × String)) (url method : String) :
    Except Err (String × List (String × String)) :=
  let fks := finalKeys mapping url method
  if fks.length == 0 then
    .error (.authEx ("Cannot make an authorization decision. URL not found. URL: " ++ url) 401)
  else if fks.length > 1 then
    .error (.authEx ("Cannot make an authorization decision. Multiple URLs found. URL: " ++ url) 401)
  else
    match extractParams (reqSegsOf url) (fks.headD "") with
    | .ok params => .ok (fks.headD "", params)
    | .error e => .error e

/-- Modelled from the claim C6 wording of the segment-scan rules, for
comparison with the code: scanning the request segments left to right, a
literal template segment must equal the request segment, a placeholder
survives except on a trailing-overhang mismatch, and the greedy
`<artifactPath>` placeholder always survives and terminates the scan. -/
def claimMatchAux (reqSegs tmpl : List String) : Nat → List String → Bool
  | _, [] => true
  | idx, p :: rest =>
    if idx ≥ tmpl.length then false
    else
      let s := tmpl.getD idx ""
      if s == "<artifactPath>" then true
      else if strHasChar s '<' && strHasChar s '>' then
        if idx == reqSegs.length - 1 && !(reqSegs.length == tmpl.length) then false
        else claimMatchAux reqSegs tmpl (idx + 1) rest
      else if s == p then
        if idx == reqSegs.length - 1 && !(reqSegs.length == tmpl.length) then false
        else claimMatchAux reqSegs tmpl (idx + 1) rest
      else false

/-- Modelled from the claim C6 wording: whether one resource-map key matches
a request under the claim stated rules. -/
def claimMatches (url : String) (k : String) : Bool :=
  claimMatchAux (reqSegsOf url) (urlSegments k) 0 (reqSegsOf url)

/-- Modelled from the claim C6 wording: how many resource-map entries of the
given method match the request under the claim stated rules. -/
def claimMatchCount (mapping : List (String × String)) (url method : String) :
    Nat :=
  (((mapping.map Prod.fst).filter (fun k => containsSub (keyMethod k) method)).filter
    (claimMatches url)).length

/-! ## AuthorizationEngine: `check_permissions` (auth.py:413-433) -/

/-- `check_permissions` (auth.py:413-433).  The second component records
whether `backend.get_user_role_list` was consulted (auth.py:424 runs before
the anonymous test at auth.py:426).  Missing dictionary keys at auth.py:422
and :423 are Python KeyErrors. -/
def check_permissions (env : Env) (session : Session) (url method : String) :
    Except Err Unit × Bool :=
  match normalize_url env.mapping url method with
  | .error e => (.error e, false)
  | .ok (key, _parameters) =>
    match List.lookup key env.mapping with
    | none => (.error (.keyError key), false)
    | some operation =>
      match List.lookup operation env.op_roles with
      | none => (.error (.keyError operation), false)
      | some roles_required =>
        let roles_allowed := env.user_roles session.id
        if roles_required.contains "anonymous" then (.ok (), true)
        else if roles_allowed.any (fun role => roles_required.contains role) then
          (.ok (), true)
        else (.error (.authEx "Access denied: lack of permissions." 401), true)

/-! ## PermissionCatalog: the index build of `init_db` (auth.py:146-263) -/

/-- `oper.count(":")` (auth.py:249). -/
def colonCount (s : String) : Nat := s.data.count ':'

/-- Stable insertion of one override into a list sorted by ascending colon
count: Python `list.sort(key=...)` is stable, so equal keys keep their
original relative order. -/
def insertByColons (x : String × Bool) :
    List (String × Bool) → List (String × Bool)
  | [] => [x]
  | y :: ys =>
    if colonCount y.1 < colonCount x.1 then y :: insertByColons x ys
    else x :: y :: ys

/-- `operations_joined.sort(key=lambda x: x[0].count(":"))` (auth.py:249),
modelled by a stable insertion sort. -/
def sortByColonCount : List (String × Bool) → List (String × Bool)
  | [] => []
  | x :: xs => insertByColons x (sortByColonCount xs)

/-- One pass of the override loop (auth.py:251-255): every operation name
that starts with the override key (`x.find(oper[0]) == 0`) is set to the
override value. -/
def applyOverride (perms : List (String × Bool)) (ov : String × Bool) :
    List (String × Bool) :=
  perms.map (fun p => if strIsPre ov.1 p.1 then (p.1, ov.2) else p)

/-- Permission resolution for one role record (auth.py:247-255): every
operation starts at the role root default, then the declared overrides are
applied in ascending colon-count order. -/
def resolveRolePerms (operations : List String) (root : Bool)
    (overrides : List (String × Bool)) : List (String × Bool) :=
  (sortByColonCount overrides).foldl applyOverride
    (operations.map (fun op => (op, root)))

/-- A value of the role-map `operations` dict: only booleans are kept
(auth.py:193). -/
inductive OpVal where
  | b (v : Bool)
  | nonBool
deriving Repr, DecidableEq

/-- One entry of `roles_to_operations_yaml["roles_to_operations"]`
(auth.py:177). -/
structure RoleDoc where
  role : String
  operations : List (String × OpVal)
deriving Repr, DecidableEq

/-- A stored `roles_operations` record (auth.py:218-228): the `_admin`
timestamps carry the clock value, everything else is the role content.  The
keystone `_id` is among the fields ignored by the build and is not
modelled. -/
structure RoleRecord where
  name : String
  root : Bool
  created : Nat
  modified : Nat
  ops : List (String × Bool)
deriving Repr, DecidableEq

/-- The per-role parse loop (auth.py:186-210): non-boolean values are
skipped, `":"` sets the root default (last occurrence wins, as in a dict),
keys other than `":"` ending in a colon are discarded as malformed, and the
first occurrence of a repeated key wins. -/
def parseOps : List (String × OpVal) → Option Bool → List (String × Bool) →
    Option Bool × List (String × Bool)
  | [], root, acc => (root, acc)
  | (op, v) :: rest, root, acc =>
    match v with
    | .nonBool => parseOps rest root acc
    | .b b =>
      if op == ":" then parseOps rest (some b) acc
      else if !(op.length == 1) && lastIsColon op then parseOps rest root acc
      else if acc.any (fun p => p.1 == op) then parseOps rest root acc
      else parseOps rest root (acc ++ [(op, b)])

/-- The clock-free content computed for each stored role record: duplicate
role names are discarded (first definition wins, auth.py:179-184; the name is
recorded as seen before the empty-operations check at auth.py:189-190), and
an undeclared or false root defaults to false (auth.py:212-215, where Python
`if not root` also fires on an explicit `False`). -/
def createRecordsCore : List RoleDoc → List String →
    List (String × Bool × List (String × Bool))
  | [], _ => []
  | d :: rest, seen =>
    if seen.contains d.role then createRecordsCore rest seen
    else if d.operations.isEmpty then createRecordsCore rest (seen ++ [d.role])
    else
      let pr := parseOps d.operations none []
      (d.role, pr.1.getD false, pr.2) :: createRecordsCore rest (seen ++ [d.role])

/-- Assembly of one stored record (auth.py:217-228): the clock value `now`
goes into the `_admin` timestamps, the parsed content into the rest. -/
def mkRoleRecord (now : Nat) (c : String × Bool × List (String × Bool)) :
    RoleRecord :=
  { name := c.1, root := c.2.1, created := now, modified := now, ops := c.2.2 }

/-- Record creation (auth.py:217-240). -/
def createRecords (docs : List RoleDoc) (now : Nat) : List RoleRecord :=
  (createRecordsCore docs []).map (mkRoleRecord now)

/-- The body of the per-record loop of the reverse-index build
(auth.py:246-260): resolve the record permission table and append the record
name to every operation it allows. -/
def buildStep (operations : List String) (perms : List (String × List String))
    (record : RoleRecord) : List (String × List String) :=
  let resolved := resolveRolePerms operations record.root record.ops
  let allowed := (resolved.filter (fun p => p.2)).map Prod.fst
  perms.map (fun p =>
    if allowed.contains p.1 then (p.1, p.2 ++ [record.name]) else p)

/-- The reverse-index build over the stored records (auth.py:242-263), in
record order starting from an empty role list per operation. -/
def buildPermissions (operations : List String) (records : List RoleRecord) :
    List (String × List String) :=
  records.foldl (buildStep operations)
    (operations.map (fun op => (op, ([] : List String))))

/-- The ordered-distinct operation list (auth.py:164-166). -/
def dedupOps (l : List String) : List String :=
  l.foldl (fun acc op => if acc.contains op then acc else acc ++ [op]) []

/-- The `operation_to_allowed_roles` index built by `init_db`
(auth.py:160-263) as a function of the two configuration documents, the
records already stored in `roles_operations`, and the clock: when no records
are stored the role map is compiled and stored first (auth.py:172-240), then
the index is built from the stored records. -/
def init_db_index (resourcesDoc : List (String × String))
    (rolesDoc : List RoleDoc) (existingRecords : List RoleRecord)
    (now : Nat) : List (String × List String) :=
  let operations := dedupOps (resourcesDoc.map Prod.snd)
  let records :=
    if existingRecords.isEmpty then createRecords rolesDoc now
    else existingRecords
  buildPermissions operations records

/-! ## TokenStore: prune, internal validation, issuance, revocation -/

/-- `periodin_db_pruning` (auth.py:61). -/
def periodin_db_pruning : Nat := 60 * 30

/-- `_internal_tokens_prune` (auth.py:604-609), with the clock explicit.
The guard is the literal condition of the source:
`if not self.next_db_prune_time or self.next_db_prune_time >= now`.  When it
fires, store entries with `expires < now` are deleted
(`del_list("tokens", {"expires.lt": now})`), the next prune time is set to
`periodin_db_pruning + now`, and the cache is cleared. -/
def internal_tokens_prune (st : St) (now : Nat) : St :=
  if st.next_db_prune_time == 0 || st.next_db_prune_time ≥ now then
    { st with
      db_tokens := st.db_tokens.filter (fun s => !(s.expires < now)),
      next_db_prune_time := periodin_db_pruning + now,
      tokens_cache := [] }
  else st

/-- Errors of the `_internal_authorize` try body, split by which except
clause can see them: AuthExceptions raised directly in the body are caught
by the `except AuthException` clause (auth.py:515), while the AuthException
raised inside the `except DbException` handler (auth.py:511) propagates past
it (a Python except clause does not catch exceptions raised by a sibling
handler of the same try). -/
inductive CoreErr where
  | catchable (msg : String)
  | uncatchable (msg : String)
deriving Repr, DecidableEq

/-- The database half of `_internal_authorize` (auth.py:504-508, with the
DbException translation of auth.py:509-513): a missing token is Unauthorized
(uncatchable, see `CoreErr`), an expired one is Unauthorized (catchable),
a live one is cached and returned. -/
def internal_authorize_db (st : St) (t : String) (now : Nat) :
    Except CoreErr AuthzOut × St :=
  match st.db_tokens.find? (fun s => s.id == t) with
  | none => (.error (.uncatchable "Invalid Token or Authorization http header"), st)
  | some session =>
    if session.expires < now then
      (.error (.catchable "Expired Token or Authorization http header"), st)
    else
      (.ok (.real session),
       { st with tokens_cache := dictSet st.tokens_cache t session })

/-- The try body of `_internal_authorize` (auth.py:490-508): a falsy token is
rejected; a cache hit is returned unless expired, in which case the entry is
evicted with `pop(token_id, None)` (remove-if-present, auth.py:498) and the
lookup falls through to the database. -/
def internal_authorize_core (st : St) (token_id : Option String) (now : Nat) :
    Except CoreErr AuthzOut × St :=
  if !(truthy token_id) then
    (.error (.catchable "Needed a token or Authorization http header"), st)
  else
    let t := token_id.getD ""
    match List.lookup t st.tokens_cache with
    | some session =>
      if session.expires < now then
        internal_authorize_db { st with tokens_cache := dictPop st.tokens_cache t } t now
      else (.ok (.real session), st)
    | none => internal_authorize_db st t now

/-- `_internal_authorize` (auth.py:489-521): the catchable AuthExceptions of
the body are replaced by the fixed fake session when the test bypass
`config["global"]["test.user_not_authorized"]` is truthy (auth.py:515-521). -/
def internal_authorize (cfg : GlobalCfg) (st : St) (token_id : Option String)
    (now : Nat) : Except Err AuthzOut × St :=
  match internal_authorize_core st token_id now with
  | (.ok v, st2) => (.ok v, st2)
  | (.error (.catchable m), st2) =>
    if truthy cfg.test_user_not_authorized then
      (.ok (.fake (cfg.test_user_not_authorized.getD "")
                  (cfg.test_project_not_authorized.getD "admin")), st2)
    else (.error (.authEx m 401), st2)
  | (.error (.uncatchable m), st2) => (.error (.authEx m 401), st2)

/-- The user-authentication step of `_internal_new_token` (auth.py:525-546):
username/password against the stored salted hash, else re-authentication via
the existing session, else missing credentials. -/
def internal_user_auth (env : Env) (st : St) (session : Option Session)
    (indata : Indata) : Except Err User :=
  if truthy indata.username then
    let u := indata.username.getD ""
    match (st.db_users.filter (fun x => x.username == u)).head? with
    | some user_content =>
      let shadow := env.hashF (indata.password.getD "") user_content.salt
      if shadow == user_content.password then .ok user_content
      else .error (.authEx "Invalid username/password" 401)
    | none => .error (.authEx "Invalid username/password" 401)
  else
    match session with
    | some s =>
      match (st.db_users.filter (fun x => x.username == s.username)).head? with
      | some user_content => .ok user_content
      | none => .error (.authEx "Invalid token" 401)
    | none =>
      .error (.authEx "Provide credentials: username/password or Authorization Bearer token" 401)

/-- Modelled from the spec: `BaseTopic.id_field` (module base_topic, not
under src/) chooses between the `_id` and the `name` field so that project
names are allowed in `project_id` (comment at auth.py:553); modelled as a
single-record read matching either field. -/
def project_lookup (st : St) (pid : String) : Option Project :=
  st.db_projects.find? (fun p => p.pid == pid || p.name == pid)

/-- The admin-flag computation of `_internal_new_token` (auth.py:560-565):
the distinguished `admin` project is admin, otherwise the resolved project
record decides (`project.get("admin", False)`). -/
def admin_of (st : St) (pid : String) : Except Err (String × Bool) :=
  if pid == "admin" then .ok (pid, true)
  else
    match project_lookup st pid with
    | none => .error (.dbEx 404)
    | some project => .ok (pid, project.admin.getD false)

/-- The project-resolution step of `_internal_new_token` (auth.py:550-565):
a requested non-admin project must exist and be among the user projects;
with no requested project the first user project is used (a Python
IndexError when the user has none). -/
def internal_resolve_project (st : St) (indata : Indata) (user : User) :
    Except Err (String × Bool) :=
  match (if truthy indata.project_id then indata.project_id else none) with
  | some pid =>
    if pid == "admin" then admin_of st pid
    else
      match project_lookup st pid with
      | none => .error (.dbEx 404)
      | some proj =>
        if !(user.projects.contains proj.pid) && !(user.projects.contains proj.name) then
          .error (.authEx ("project " ++ pid ++ " not allowed for this user") 401)
        else admin_of st pid
  | none =>
    match user.projects.head? with
    | none => .error (.pyError "IndexError: user has no projects")
    | some pid => admin_of st pid

/-- `_internal_new_token` (auth.py:523-578), with the clock and the random
32-character token id (auth.py:548-549) as explicit parameters: the session
record is built with `issued_at = now` and `expires = now + 3600`
(auth.py:566-568), cached, stored, and an opportunistic prune is run. -/
def internal_new_token (env : Env) (st : St) (session : Option Session)
    (indata : Indata) (remote : RemoteInfo) (now : Nat) (token_id : String) :
    Except Err Session × St :=
  match internal_user_auth env st session indata with
  | .error e => (.error e, st)
  | .ok user_content =>
    match internal_resolve_project st indata user_content with
    | .error e => (.error e, st)
    | .ok (project_id, session_admin) =>
      let new_session : Session :=
        { id := token_id, issued_at := now, expires := now + 3600,
          project_id := project_id, username := user_content.username,
          remote_port := remote.port, admin := session_admin,
          remote_host :=
            if truthy remote.name then remote.name
            else if truthy remote.ip then remote.ip else none }
      let st1 : St :=
        { st with tokens_cache := dictSet st.tokens_cache token_id new_session,
                  db_tokens := st.db_tokens ++ [new_session] }
      (.ok new_session, internal_tokens_prune st1 now)

/-- The arguments new_token passes to `backend.authenticate` in delegated
mode (auth.py:322-331).  The source passes `indata.get("username")` as both
the `user` and the `password` argument (auth.py:327-328), and
`session.get("token")` as the token argument, which is always None because
session records are built without a `token` key (auth.py:361-370,
:566-568). -/
def delegated_auth_call (session : Option Session) (indata : Indata) :
    AuthCall :=
  { user := indata.username,
    password := indata.username,
    token := none,
    project := indata.project_id }

/-- The session build and caching of delegated new_token (auth.py:360-380):
`issued_at = now`, `expires = token_info.get("expires", now + 3600)`, the
username falls back from the token info to the existing session (a Python
AttributeError when both are missing), and the admin flag tests the backend
project name against `"admin"`. -/
def new_token_delegated (env : Env) (st : St) (session : Option Session)
    (indata : Indata) (remote : RemoteInfo) (now : Nat) :
    Except Err Session × St :=
  match env.backend_auth (delegated_auth_call session indata) with
  | .error e => (.error e, st)
  | .ok token_info =>
    let uname : Except Err String :=
      match (if truthy token_info.username then token_info.username else none) with
      | some u => .ok u
      | none =>
        match session with
        | some s => .ok s.username
        | none => .error (.pyError "AttributeError: NoneType has no attribute get")
    match uname with
    | .error e => (.error e, st)
    | .ok u =>
      let new_session : Session :=
        { id := token_info.id, issued_at := now,
          expires := token_info.expires.getD (now + 3600),
          project_id := token_info.project_id, username := u,
          remote_port := remote.port,
          admin := token_info.project_name == some "admin",
          remote_host :=
            if truthy remote.name then remote.name
            else if truthy remote.ip then remote.ip else none }
      (.ok new_session,
       { st with tokens_cache := dictSet st.tokens_cache token_info.id new_session })

/-- `new_token` (auth.py:319-380): mode dispatch. -/
def new_token (env : Env) (st : St) (session : Option Session)
    (indata : Indata) (remote : RemoteInfo) (now : Nat) (token_id : String) :
    Except Err Session × St :=
  match env.mode with
  | .internal => internal_new_token env st session indata remote now token_id
  | .keystone => new_token_delegated env st session indata remote now

/-- `_internal_del_token` (auth.py:593-602): remove-if-present from the
cache, then delete from the store (NotFound when the store has no entry,
mirroring `db.del_one` raising DbException NOT_FOUND). -/
def internal_del_token (st : St) (token_id : String) :
    Except Err String × St :=
  let st1 : St := { st with tokens_cache := dictPop st.tokens_cache token_id }
  if st1.db_tokens.any (fun s => s.id == token_id) then
    (.ok ("token " ++ token_id ++ " deleted"),
     { st1 with db_tokens := st1.db_tokens.filter (fun s => !(s.id == token_id)) })
  else
    (.error (.authEx ("Token " ++ token_id ++ " not found") 404), st1)

/-- `del_token` (auth.py:402-411).  In delegated mode `backend.revoke_token`
runs first (recorded in `backend_revoked`, auth.py:407); the subsequent
unconditional `del self.tokens_cache[token]` raises KeyError on a missing
key, which the handler converts to NotFound (auth.py:410-411). -/
def del_token (env : Env) (st : St) (token : String) :
    Except Err String × St :=
  match env.mode with
  | .internal => internal_del_token st token
  | .keystone =>
    let st1 : St := { st with backend_revoked := st.backend_revoked ++ [token] }
    match List.lookup token st1.tokens_cache with
    | some _ =>
      (.ok ("token " ++ token ++ " deleted"),
       { st1 with tokens_cache := dictPop st1.tokens_cache token })
    | none =>
      (.error (.authEx ("Token " ++ token ++ " not found") 404), st1)

/-! ## Authenticator facade: `authorize` (auth.py:268-317) -/

/-- Credential extraction from the Authorization header (auth.py:272-279):
a Bearer header yields a token, a Basic header yields the base64 user
password blob; `auth.split(" ")` keeps empty fields and `auth_list[-1]` is
the last of them. -/
def extract_creds (req : ReqCtx) : Option String × Option String :=
  match req.authorization_header with
  | none => (none, none)
  | some auth =>
    if auth == "" then (none, none)
    else
      let auth_list := splitOnChar auth ' '
      if asciiLower (auth_list.headD "") == "bearer" then (auth_list.getLast?, none)
      else if asciiLower (auth_list.headD "") == "basic" then (none, auth_list.getLast?)
      else (none, none)

/-- Token resolution (auth.py:272-297): header token first, then the stored
session reference (a stored "logout" forces re-authentication).  When basic
authentication is allowed, the call `self.new_token(None, {...})` at
auth.py:295 omits the required `remote` parameter of new_token
(auth.py:319), so the basic-auth fallback raises an uncaught Python
TypeError before new_token runs; the preceding base64 decode of
auth.py:290-294 has no observable effect. -/
def resolve_token_step (env : Env) (st : St) (req : ReqCtx) (now : Nat)
    (fresh_id : String) : Except Err (Option String) × St :=
  let creds := extract_creds req
  if truthy creds.1 then (.ok creds.1, st)
  else
    if truthy req.session_auth then
      if req.session_auth == some "logout" then (.ok none, st)
      else (.ok req.session_auth, st)
    else if truthy creds.2 && req.allow_basic then
      (.error (.pyError "TypeError: new_token missing required argument remote"), st)
    else (.ok none, st)

/-- The try body of `authorize` (auth.py:268-312): internal mode returns the
result of `_internal_authorize` directly (auth.py:298-299, with no call to
check_permissions); delegated mode requires a token, validates it against
the backend, reads the cached session (a Python KeyError when absent,
auth.py:306), runs check_permissions, and on any AuthException of that inner
block revokes the token via del_token before re-raising
(auth.py:310-312). -/
def authorize_body (env : Env) (st : St) (req : ReqCtx) (now : Nat)
    (fresh_id : String) : Except Err AuthzOut × St × Trace :=
  match resolve_token_step env st req now fresh_id with
  | (.error e, st2) => (.error e, st2, {})
  | (.ok token, st2) =>
    match env.mode with
    | .internal =>
      let r := internal_authorize env.global_cfg st2 token now
      (r.1, r.2, { validated := false, checked := false })
    | .keystone =>
      if !(truthy token) then
        (.error (.authEx "Needed a token or Authorization http header" 401), st2, {})
      else
        let t := token.getD ""
        if env.backend_valid t then
          match List.lookup t st2.tokens_cache with
          | none => (.error (.keyError t), st2, { validated := true })
          | some sess =>
            let chk := check_permissions env sess req.path_info req.method
            match chk.1 with
            | .ok _ => (.ok (.real sess), st2, { validated := true, checked := true })
            | .error (.authEx m c) =>
              match del_token env st2 t with
              | (.ok _, st3) => (.error (.authEx m c), st3, { validated := true, checked := true })
              | (.error e2, st3) => (.error e2, st3, { validated := true, checked := true })
            | .error e => (.error e, st2, { validated := true, checked := true })
        else
          match del_token env st2 t with
          | (.ok _, st3) =>
            (.error (.authEx "backend token validation failed" 401), st3, { validated := true })
          | (.error e2, st3) => (.error e2, st3, { validated := true })

/-- `authorize` (auth.py:268-317): the outer `except AuthException` handler
re-raises `AuthException(str(e))`, which keeps the message but resets the
http code to the 401 default (authconn.py:36); the session-cookie clearing
and the WWW-Authenticate response header are transport state and are not
modelled. -/
def authorize (env : Env) (st : St) (req : ReqCtx) (now : Nat)
    (fresh_id : String) : Except Err AuthzOut × St × Trace :=
  match authorize_body env st req now fresh_id with
  | (.error (.authEx m _), st2, tr) => (.error (.authEx m 401), st2, tr)
  | other => other

/-! ## Characterisation helpers and concrete instances used by the theorems -/

/-- The value of the last entry of an override list whose key is a string
prefix of `op`, with default `dflt` when none matches.  Used to characterise
the effective permission computed by `resolveRolePerms`. -/
def lastMatchValue (op : String) (dflt : Bool) : List (String × Bool) → Bool
  | [] => dflt
  | ov :: rest =>
    if strIsPre ov.1 op then lastMatchValue op ov.2 rest
    else lastMatchValue op dflt rest

/-- A live session used by several concrete instances. -/
def exSession1 : Session :=
  { id := "tok1", issued_at := 0, expires := 100, project_id := "p",
    username := "u", remote_port := 1, admin := false }

/-- An expired session (expires = 5). -/
def exSessionExpired : Session :=
  { id := "texp", issued_at := 0, expires := 5, project_id := "p",
    username := "u", remote_port := 1, admin := false }

/-- Internal-mode environment with default configuration. -/
def exEnvInternal : Env := { mode := Mode.internal }

/-- Internal-mode state holding the live session in cache and store. -/
def exStInternal : St :=
  { tokens_cache := [("tok1", exSession1)], db_tokens := [exSession1] }

/-- A request presenting the live session token as a Bearer header. -/
def exReqBearer : ReqCtx :=
  { authorization_header := some "Bearer tok1", path_info := "/vnfds/abc",
    method := "GET", remote := { port := 1 } }

/-- State for the prune evaluations: one expired token in store and cache,
next prune time 1800 (a prune ran at time 0). -/
def exStPrune : St :=
  { tokens_cache := [("texp", exSessionExpired)],
    db_tokens := [exSessionExpired], next_db_prune_time := 1800 }

/-- State holding only the expired session, for the expiry theorem. -/
def exStExpired : St :=
  { tokens_cache := [("texp", exSessionExpired)], db_tokens := [exSessionExpired] }

/-- Delegated-mode environment with a public (anonymous) operation. -/
def exEnvAnon : Env :=
  { mode := Mode.keystone,
    mapping := [("GET /things", "things")],
    op_roles := [("things", ["anonymous"])],
    user_roles := fun _ => [] }

/-- Delegated-mode environment with a role-guarded operation the user holds. -/
def exEnvViewer : Env :=
  { mode := Mode.keystone,
    mapping := [("GET /things", "things")],
    op_roles := [("things", ["project_viewer"])],
    user_roles := fun _ => ["project_viewer"] }

/-- Delegated-mode environment for a full successful authorize run:
the backend accepts every token and the operation is public. -/
def exEnvDel : Env :=
  { mode := Mode.keystone,
    mapping := [("GET /things", "things")],
    op_roles := [("things", ["anonymous"])],
    user_roles := fun _ => [],
    backend_valid := fun _ => true }

/-- Delegated-mode state holding the live session in cache. -/
def exStDel : St := { tokens_cache := [("tok1", exSession1)] }

/-- A request for the public operation with the live Bearer token. -/
def exReqDel : ReqCtx :=
  { authorization_header := some "Bearer tok1", path_info := "/things",
    method := "GET", remote := { port := 1 } }

/-- A backend token info whose expiry (0) is already in the past. -/
def exTokenInfoExpired : TokenInfo :=
  { id := "t1", expires := some 0, project_id := "p", username := some "bob" }

/-- Delegated-mode environment whose backend returns the expired token info. -/
def exEnvDelExpired : Env :=
  { mode := Mode.keystone,
    backend_auth := fun _ => Except.ok exTokenInfoExpired }

/-- The session record delegated new_token builds at now = 100 from
`exTokenInfoExpired`. -/
def exSessionFromBackend : Session :=
  { id := "t1", issued_at := 100, expires := 0, project_id := "p",
    username := "bob", remote_port := 7, admin := false }

/-- Internal-mode environment whose hash model is string concatenation. -/
def exEnvIntHash : Env := { mode := Mode.internal, hashF := fun p s => p ++ s }

/-- A stored user whose shadow password matches password "pw" under the
concatenation hash model. -/
def exUser1 : User :=
  { username := "alice", password := "pwSALT", salt := "SALT", projects := ["p1"] }

/-- The stored project of `exUser1`. -/
def exProject1 : Project := { pid := "p1", name := "proj1", admin := some false }

/-- Internal-mode state with the stored user and project. -/
def exStUsers : St := { db_users := [exUser1], db_projects := [exProject1] }

/-- The session `internal_new_token` issues for `exUser1` at now = 100 with
token id "RANDTOK". -/
def exSessionIssued : Session :=
  { id := "RANDTOK", issued_at := 100, expires := 3700, project_id := "p1",
    username := "alice", remote_port := 7, admin := false }

/-- Resource map for the C6 counterexample: a greedy template and a literal
template that share their first two segments. -/
def exMappingGreedy : List (String × String) :=
  [("GET /a/<artifactPath>", "op_artifact"), ("GET /a/b/c/d", "op_literal")]

/-- Resource map of the spec scenario with a greedy artifact template. -/
def exMappingArtifacts : List (String × String) :=
  [("GET /vnfds/<id>/artifacts/<artifactPath>", "vnfds:id:artifacts")]

/-- Resource map whose sole (greedy) template is longer than the request
GET /a: the scan breaks early on it and the extraction of `<x>` overruns
the request segments (the IndexError of auth.py:485). -/
def exMappingOverrun : List (String × String) :=
  [("GET /a/<x>/<artifactPath>", "op_overrun")]

/-- Keystone environment with everything defaulted, for del_token. -/
def exEnvKeystone : Env := { mode := Mode.keystone }

/-! ## Helper lemmas -/

/-- Unfolding of association-list lookup at a cons cell. -/
theorem lookup_cons_eq {β : Type} (l : List (String × β)) (k a : String) (b : β) :
    List.lookup k ((a, b) :: l) = if k = a then some b else List.lookup k l := by
  by_cases h : k = a
  · simp [List.lookup, h]
  · have hb : (k == a) = false := beq_eq_false_iff_ne.mpr h
    simp [List.lookup, hb, h]

/-- One override pass rewrites exactly the matching entries. -/
theorem lookup_applyOverride (perms : List (String × Bool)) (ov : String × Bool)
    (op : String) :
    List.lookup op (applyOverride perms ov)
      = (List.lookup op perms).map (fun b => if strIsPre ov.1 op then ov.2 else b) := by
  induction perms with
  | nil => rfl
  | cons p rest ih =>
    rcases p with ⟨k, v⟩
    by_cases hpre : strIsPre ov.1 k
    · by_cases heq : op = k
      · subst heq; simp [applyOverride, lookup_cons_eq, hpre]
      · simpa [applyOverride, lookup_cons_eq, hpre, heq] using ih
    · by_cases heq : op = k
      · subst heq; simp [applyOverride, lookup_cons_eq, hpre]
      · simpa [applyOverride, lookup_cons_eq, hpre, heq] using ih

/-- Folding a list of overrides computes the last matching value. -/
theorem lookup_foldl_applyOverride (ovs : List (String × Bool)) :
    ∀ (perms : List (String × Bool)) (op : String) (b : Bool),
    List.lookup op perms = some b →
    List.lookup op (ovs.foldl applyOverride perms) = some (lastMatchValue op b ovs) := by
  induction ovs with
  | nil => intro perms op b h; simpa [lastMatchValue] using h
  | cons ov rest ih =>
    intro perms op b h
    have hstep : List.lookup op (applyOverride perms ov)
        = some (if strIsPre ov.1 op then ov.2 else b) := by
      rw [lookup_applyOverride, h]; rfl
    by_cases hpre : strIsPre ov.1 op
    · simpa [lastMatchValue, hpre] using
        ih (applyOverride perms ov) op ov.2 (by simpa [hpre] using hstep)
    · simpa [lastMatchValue, hpre] using
        ih (applyOverride perms ov) op b (by simpa [hpre] using hstep)

/-- The initial permission table assigns the root default to every known
operation. -/
theorem lookup_init_perms (operations : List String) (root : Bool) (op : String)
    (h : op ∈ operations) :
    List.lookup op (operations.map (fun o => (o, root))) = some root := by
  induction operations with
  | nil => cases h
  | cons o rest ih =>
    rcases List.mem_cons.mp h with h1 | h2
    · simp [lookup_cons_eq, h1]
    · by_cases he : op = o
      · simp [lookup_cons_eq, he]
      · simp [lookup_cons_eq, he, ih h2]

/-- After a remove-if-present the key is gone. -/
theorem lookup_dictPop_self {β : Type} (l : List (String × β)) (k : String) :
    List.lookup k (dictPop l k) = none := by
  induction l with
  | nil => rfl
  | cons p rest ih =>
    by_cases h : p.1 = k
    · simpa [dictPop, List.filter_cons, h] using ih
    · have hb : (p.1 == k) = false := beq_eq_false_iff_ne.mpr h
      have hk : k ≠ p.1 := fun hc => h hc.symm
      rcases p with ⟨a, b⟩
      simp only [dictPop, List.filter_cons] at ih ⊢
      simp [hb, lookup_cons_eq, hk, ih]

/-- Remove-if-present of an absent key changes nothing. -/
theorem dictPop_eq_self_of_lookup_none {β : Type} (l : List (String × β))
    (k : String) (h : List.lookup k l = none) : dictPop l k = l := by
  induction l with
  | nil => rfl
  | cons p rest ih =>
    rcases p with ⟨a, b⟩
    rw [lookup_cons_eq] at h
    by_cases he : k = a
    · simp [he] at h
    · simp only [if_neg he] at h
      have hb : (a == k) = false := beq_eq_false_iff_ne.mpr (fun hc => he hc.symm)
      rw [show dictPop ((a, b) :: rest) k = (a, b) :: dictPop rest k from by
            simp [dictPop, List.filter_cons, hb], ih h]

/-- The reverse-index fold does not read the record timestamps. -/
theorem buildPermissions_createRecords_time (ops : List String)
    (cores : List (String × Bool × List (String × Bool))) (t1 t2 : Nat) :
    ∀ acc, List.foldl (buildStep ops) acc (cores.map (mkRoleRecord t1))
      = List.foldl (buildStep ops) acc (cores.map (mkRoleRecord t2)) := by
  induction cores with
  | nil => intro acc; rfl
  | cons c cs ih =>
    intro acc
    have hstep : buildStep ops acc (mkRoleRecord t1 c)
        = buildStep ops acc (mkRoleRecord t2 c) := rfl
    simp only [List.map_cons, List.foldl_cons, hstep]
    exact ih _

/-- One step of the extraction loop: a successful run through the head
segment continues from an extended accumulator, which contains the greedy
binding when the head is the greedy placeholder. -/
theorem extractParamsAux_step (reqSegs : List String) (p : Nat × String)
    (rest : List (Nat × String)) (acc ps : List (String × String))
    (h : extractParamsAux reqSegs (p :: rest) acc = .ok ps) :
    ∃ acc2, extractParamsAux reqSegs rest acc2 = .ok ps ∧ acc ⊆ acc2 ∧
      (p.2 = "<artifactPath>" →
        ("artifactPath", joinWith "/" (reqSegs.drop p.1)) ∈ acc2) := by
  by_cases hph : (strHasChar p.2 '<' && strHasChar p.2 '>') = true
  · by_cases hart : (p.2 == "<artifactPath>") = true
    · refine ⟨acc ++ [(stripAngles p.2, joinWith "/" (reqSegs.drop p.1))], ?_, ?_, ?_⟩
      · simpa [extractParamsAux, hph, hart] using h
      · simp
      · intro hp2
        have hstr : stripAngles p.2 = "artifactPath" := by
          rw [hp2]; decide
        simp [hstr]
    · rcases hseg : reqSegs[p.1]? with _ | seg
      · simp [extractParamsAux, hph, hart, hseg] at h
      · refine ⟨acc ++ [(stripAngles p.2, seg)], ?_, ?_, ?_⟩
        · simpa [extractParamsAux, hph, hart, hseg] using h
        · simp
        · intro hp2
          rw [hp2] at hart
          exact absurd (by decide) hart
  · refine ⟨acc, ?_, ?_, ?_⟩
    · simpa [extractParamsAux, hph] using h
    · exact fun x hx => hx
    · intro hp2
      rw [hp2] at hph
      exact absurd (by decide) hph

/-- The extraction loop only extends its accumulator. -/
theorem extractParamsAux_sub (reqSegs : List String) :
    ∀ (l : List (Nat × String)) (acc ps : List (String × String)),
    extractParamsAux reqSegs l acc = .ok ps → acc ⊆ ps := by
  intro l
  induction l with
  | nil =>
    intro acc ps h
    simp only [extractParamsAux, Except.ok.injEq] at h
    subst h
    exact fun x hx => hx
  | cons p rest ih =>
    intro acc ps h
    obtain ⟨acc2, h2, hsub, _⟩ := extractParamsAux_step reqSegs p rest acc ps h
    exact fun x hx => ih acc2 ps h2 (hsub hx)

/-- A successful extraction of a template containing the greedy placeholder
at index idx binds it to the remaining request segments. -/
theorem extractParamsAux_greedy_mem (reqSegs : List String) :
    ∀ (l : List (Nat × String)) (acc ps : List (String × String)) (idx : Nat),
    extractParamsAux reqSegs l acc = .ok ps →
    (idx, "<artifactPath>") ∈ l →
    ("artifactPath", joinWith "/" (reqSegs.drop idx)) ∈ ps := by
  intro l
  induction l with
  | nil => intro acc ps idx _ hmem; cases hmem
  | cons p rest ih =>
    intro acc ps idx h hmem
    obtain ⟨acc2, h2, hsub, hgr⟩ := extractParamsAux_step reqSegs p rest acc ps h
    rcases List.mem_cons.mp hmem with hp | hrest
    · have hp1 : p.1 = idx := by rw [← hp]
      have hp2 : p.2 = "<artifactPath>" := by rw [← hp]
      have hin : ("artifactPath", joinWith "/" (reqSegs.drop idx)) ∈ acc2 := by
        have hg := hgr hp2
        rwa [hp1] at hg
      exact extractParamsAux_sub reqSegs rest acc2 ps h2 hin
    · exact ih acc2 ps idx h2 hrest

/-- A successful delegated authorize has both validated the token and run
the permission check. -/
theorem authorize_body_keystone_ok_trace (env : Env) (st : St) (req : ReqCtx)
    (now : Nat) (fid : String) (out : AuthzOut) (st2 : St) (tr : Trace)
    (hm : env.mode = Mode.keystone)
    (h : authorize_body env st req now fid = (.ok out, st2, tr)) :
    tr = { validated := true, checked := true } := by
  unfold authorize_body at h
  rcases hrt : resolve_token_step env st req now fid with ⟨rt, stA⟩
  rw [hrt] at h
  cases rt with
  | error e => simp at h
  | ok token =>
    rw [hm] at h
    dsimp only at h
    by_cases htt : truthy token
    · rw [htt] at h
      rw [if_neg (by simp)] at h
      by_cases hbv : env.backend_valid (token.getD "") = true
      · rw [if_pos hbv] at h
        rcases hlk : List.lookup (token.getD "") stA.tokens_cache with _ | sess
        · rw [hlk] at h; simp at h
        · rw [hlk] at h
          dsimp only at h
          rcases hchk : (check_permissions env sess req.path_info req.method).1 with e | u
          · rw [hchk] at h
            cases e with
            | authEx m c =>
              rcases hdt : del_token env stA (token.getD "") with ⟨dr, st3⟩
              rw [hdt] at h
              cases dr <;> simp at h
            | dbEx c => simp at h
            | keyError k2 => simp at h
            | pyError m2 => simp at h
          · rw [hchk] at h
            simp only [Prod.mk.injEq] at h
            exact h.2.2.symm
      · rw [if_neg hbv] at h
        rcases hdt : del_token env stA (token.getD "") with ⟨dr, st3⟩
        rw [hdt] at h
        cases dr <;> simp at h
    · have hf : truthy token = false := by simpa using htt
      rw [hf] at h
      simp at h

/-- The internal branch of authorize never runs the permission check. -/
theorem authorize_body_internal_trace (env : Env) (st : St) (req : ReqCtx)
    (now : Nat) (fid : String) (r : Except Err AuthzOut) (st2 : St) (tr : Trace)
    (hm : env.mode = Mode.internal)
    (h : authorize_body env st req now fid = (r, st2, tr)) :
    tr.checked = false := by
  unfold authorize_body at h
  rcases hrt : resolve_token_step env st req now fid with ⟨rt, stA⟩
  rw [hrt] at h
  cases rt with
  | error e =>
    simp only [Prod.mk.injEq] at h
    rw [← h.2.2]
  | ok token =>
    rw [hm] at h
    dsimp only at h
    simp only [Prod.mk.injEq] at h
    rw [← h.2.2]

/-- The outer AuthException handler does not change the trace. -/
theorem authorize_trace_eq (env : Env) (st : St) (req : ReqCtx)
    (now : Nat) (fid : String) :
    (authorize env st req now fid).2.2 = (authorize_body env st req now fid).2.2 := by
  unfold authorize
  rcases hb : authorize_body env st req now fid with ⟨r, stB, trB⟩
  cases r with
  | ok v => simp
  | error e => cases e <;> simp

/-- A successful authorize comes from a successful try body. -/
theorem authorize_ok_of_body (env : Env) (st : St) (req : ReqCtx)
    (now : Nat) (fid : String) (out : AuthzOut) (st2 : St) (tr : Trace)
    (h : authorize env st req now fid = (.ok out, st2, tr)) :
    authorize_body env st req now fid = (.ok out, st2, tr) := by
  unfold authorize at h
  rcases hb : authorize_body env st req now fid with ⟨r, stB, trB⟩
  rw [hb] at h
  cases r with
  | ok v => simpa using h
  | error e => cases e <;> simp at h

/-! ## Claim theorems -/

/-- C1 (counterexample): in internal mode a valid Bearer token is granted
access by authorize with no permission check at all — the trace of the run
shows neither backend validation nor check_permissions was invoked, refuting
the claim that in either backend mode a successful authorize performs the
URL-resolution and authorization check before returning the session. -/
theorem authorize_internal_no_check_cex :
    exEnvInternal.mode = Mode.internal ∧
    authorize exEnvInternal exStInternal exReqBearer 10 "fid"
      = (.ok (.real exSession1), exStInternal,
         { validated := false, checked := false }) :=
  ⟨rfl, by decide⟩

/-- C1 (amended): a successful authorize in delegated (keystone) mode has
always validated the token against the backend and run check_permissions
against the request method and path; in internal mode authorize returns the
result of the internal validation path without ever invoking
check_permissions. -/
theorem authorize_mode_dispatch (env : Env) (st : St) (req : ReqCtx)
    (now : Nat) (fid : String) :
    (env.mode = Mode.keystone → ∀ out st2 tr,
        authorize env st req now fid = (.ok out, st2, tr) →
        tr.validated = true ∧ tr.checked = true) ∧
    (env.mode = Mode.internal → ∀ r st2 tr,
        authorize env st req now fid = (r, st2, tr) → tr.checked = false) := by
  constructor
  · intro hm out st2 tr h
    have hb := authorize_ok_of_body env st req now fid out st2 tr h
    have htr := authorize_body_keystone_ok_trace env st req now fid out st2 tr hm hb
    rw [htr]
    exact ⟨rfl, rfl⟩
  · intro hm r st2 tr h
    have htr : (authorize env st req now fid).2.2 = tr := by rw [h]
    rcases hb : authorize_body env st req now fid with ⟨r0, st0, tr0⟩
    have hch := authorize_body_internal_trace env st req now fid r0 st0 tr0 hm hb
    have h2 : tr = tr0 := by
      rw [← htr, authorize_trace_eq, hb]
    rw [h2]
    exact hch

/-- C1 (witness): a concrete successful delegated run on which the theorem
yields validated = true and checked = true. -/
theorem authorize_mode_dispatch_witness :
    authorize exEnvDel exStDel exReqDel 10 "fid"
      = (.ok (.real exSession1), exStDel, { validated := true, checked := true }) ∧
    ({ validated := true, checked := true } : Trace).validated = true ∧
    ({ validated := true, checked := true } : Trace).checked = true :=
  ⟨by decide,
   (authorize_mode_dispatch exEnvDel exStDel exReqDel 10 "fid").1 rfl
     (.real exSession1) exStDel { validated := true, checked := true } (by decide)⟩

/-- C2 (code evaluation at the failing input): with credentials
username = "alice", password = "secret", delegated new_token passes "alice"
— the username, not the caller-supplied password — as the password argument
of backend.authenticate (auth.py:328), contradicting the specified call
`authenticate(user, password, existingToken, targetProject)`; the
commented-out block at auth.py:333-335 shows the intended use of
indata.get("password"). -/
theorem delegated_auth_call_password_is_username :
    (delegated_auth_call none
        { username := some "alice", password := some "secret" }).password
      = some "alice" ∧
    (delegated_auth_call none
        { username := some "alice", password := some "secret" }).password
      ≠ some "secret" := by
  decide

/-- C3 (code evaluation at the failing input): with the prune clock at 1800
(a prune ran at time 0, interval 30 minutes), a call at now = 10 — when the
interval has not elapsed — does prune (store emptied, cache cleared, clock
moved to 1810), while a call at now = 2000 — when the interval has elapsed —
changes nothing: the guard `next_db_prune_time >= now` of auth.py:606 is
inverted relative to the comments at auth.py:61 and :72. -/
theorem tokens_prune_interval_inverted :
    (internal_tokens_prune exStPrune 10).db_tokens = [] ∧
    (internal_tokens_prune exStPrune 10).tokens_cache = [] ∧
    (internal_tokens_prune exStPrune 10).next_db_prune_time = 1810 ∧
    internal_tokens_prune exStPrune 2000 = exStPrune := by
  decide

/-- C4 (counterexample): for an operation whose allowed roles contain
"anonymous", check_permissions does grant access, but the identity backend
is consulted (get_user_role_list at auth.py:424 runs before the anonymous
test at auth.py:426) — refuting the claim that the grant happens without
consulting the identity backend. -/
theorem check_permissions_anonymous_consults_backend_cex :
    List.lookup "things" exEnvAnon.op_roles = some ["anonymous"] ∧
    check_permissions exEnvAnon exSession1 "/things" "GET" = (.ok (), true) := by
  decide

/-- C4 (amended): for every resolved operation, check_permissions first
fetches the session role set from the identity backend; if "anonymous" is
among the allowed roles it grants access regardless of the fetched roles,
otherwise it grants access iff the fetched set intersects the allowed-role
list and raises Unauthorized ("lack of permissions") otherwise — in every
case with the backend consulted. -/
theorem check_permissions_decision (env : Env) (sess : Session)
    (url method key op : String) (params : List (String × String))
    (roles : List String)
    (hres : normalize_url env.mapping url method = .ok (key, params))
    (hmap : List.lookup key env.mapping = some op)
    (hroles : List.lookup op env.op_roles = some roles) :
    (("anonymous" ∈ roles) → check_permissions env sess url method = (.ok (), true)) ∧
    (("anonymous" ∉ roles) →
      ((∃ r ∈ env.user_roles sess.id, r ∈ roles) →
          check_permissions env sess url method = (.ok (), true)) ∧
      ((∀ r ∈ env.user_roles sess.id, r ∉ roles) →
          check_permissions env sess url method
            = (.error (.authEx "Access denied: lack of permissions." 401), true))) := by
  unfold check_permissions
  rw [hres]
  dsimp only
  rw [hmap]
  dsimp only
  rw [hroles]
  dsimp only
  refine ⟨?_, ?_⟩
  · intro hanon
    have hc : roles.contains "anonymous" = true := List.elem_iff.mpr hanon
    rw [hc]
    simp
  · intro hanon
    have hc : roles.contains "anonymous" = false := by
      simp [List.elem_iff]
      simpa using hanon
    refine ⟨?_, ?_⟩
    · intro hex
      have ha : (env.user_roles sess.id).any (fun role => roles.contains role) = true := by
        rcases hex with ⟨r, hr1, hr2⟩
        exact List.any_eq_true.mpr ⟨r, hr1, List.elem_iff.mpr hr2⟩
      rw [hc, ha]
      simp
    · intro hall
      have ha : (env.user_roles sess.id).any (fun role => roles.contains role) = false := by
        rw [← Bool.not_eq_true, List.any_eq_true]
        rintro ⟨r, hr1, hr2⟩
        exact hall r hr1 (List.elem_iff.mp hr2)
      rw [hc, ha]
      simp

/-- C4 (witness): a role-guarded operation granted through a matching role,
with the backend consulted. -/
theorem check_permissions_decision_witness :
    check_permissions exEnvViewer exSession1 "/things" "GET" = (.ok (), true) :=
  ((check_permissions_decision exEnvViewer exSession1 "/things" "GET"
      "GET /things" "things" [] ["project_viewer"]
      (by decide) (by decide) (by decide)).2 (by decide)).1
    ⟨"project_viewer", by decide, by decide⟩

/-- C5 (counterexample): two overrides with the same colon count where one
is a string prefix of the other: the effective decision for operation
"vnfds" depends on the declaration order of {"vnf": false, "vnfds": true}
(the stable sort keeps equal colon counts in declaration order, so the
later-declared override wins), and in the first ordering it differs from the
most specific matching override ("vnfds") — refuting order independence. -/
theorem role_perms_order_dependent_cex :
    List.lookup "vnfds"
        (resolveRolePerms ["vnfds"] false [("vnfds", true), ("vnf", false)])
      = some false ∧
    List.lookup "vnfds"
        (resolveRolePerms ["vnfds"] false [("vnf", false), ("vnfds", true)])
      = some true := by
  decide

/-- C5 (amended): for every operation in the catalog, the role effective
permission equals the value of the last matching override after the stable
ascending sort by colon count (so a matching prefix with strictly more
colons beats one with fewer, and among matching prefixes of equal colon
count the later-declared one wins), defaulting to the role root when no
override matches; order independence holds only when no two matching
prefixes share a colon count. -/
theorem role_perms_last_sorted_match (operations : List String) (root : Bool)
    (overrides : List (String × Bool)) (op : String) (h : op ∈ operations) :
    List.lookup op (resolveRolePerms operations root overrides)
      = some (lastMatchValue op root (sortByColonCount overrides)) := by
  unfold resolveRolePerms
  exact lookup_foldl_applyOverride _ _ _ _ (lookup_init_perms operations root op h)

/-- C5 (witness): the characterisation evaluated on the counterexample
ordering that grants the permission. -/
theorem role_perms_last_sorted_match_witness :
    List.lookup "vnfds"
        (resolveRolePerms ["vnfds"] false [("vnf", false), ("vnfds", true)])
      = some (lastMatchValue "vnfds" false
          (sortByColonCount [("vnf", false), ("vnfds", true)])) :=
  role_perms_last_sorted_match ["vnfds"] false [("vnf", false), ("vnfds", true)]
    "vnfds" (by decide)

/-- C6 (counterexample): under the claim's stated scan rules ("the greedy
placeholder always survives and terminates the scan") both entries of
`exMappingGreedy` match GET /a/b/c/d, so the claim requires resolution to
fail; the code instead eliminates the greedy candidate once the scan passes
the end of its template (auth.py:451) and successfully returns the literal
entry. -/
theorem url_resolve_greedy_rule_cex :
    claimMatchCount exMappingGreedy "/a/b/c/d" "GET" = 2 ∧
    normalize_url exMappingGreedy "/a/b/c/d" "GET" = .ok ("GET /a/b/c/d", []) := by
  decide

/-- C6 (amended): under the code's segment scan (a greedy candidate survives
at its own position but is dropped once the scan passes its template end,
and the scan stops early only when a single candidate ending in the greedy
placeholder remains): if exactly one entry survives and its parameter
extraction succeeds, resolution returns that entry with the extracted
parameters, the greedy placeholder bound to the remaining request segments
rejoined with "/"; zero or multiple survivors fail deterministically with
Unauthorized; and a sole survivor whose non-greedy placeholder overruns the
request segments (reachable after the early greedy break) propagates the
uncaught IndexError of auth.py:485 instead of returning — resolution never
silently picks an entry, but it does not always return the unique match
either. -/
theorem url_resolve_unique_survivor (mapping : List (String × String))
    (url method : String) :
    (∀ k ps, finalKeys mapping url method = [k] →
        extractParams (reqSegsOf url) k = .ok ps →
        normalize_url mapping url method = .ok (k, ps)) ∧
    ((finalKeys mapping url method).length ≠ 1 →
        ∃ m, normalize_url mapping url method = .error (.authEx m 401)) ∧
    (∀ k e, finalKeys mapping url method = [k] →
        extractParams (reqSegsOf url) k = .error e →
        normalize_url mapping url method = .error e) ∧
    (∀ k idx ps, finalKeys mapping url method = [k] →
        (urlSegments k)[idx]? = some "<artifactPath>" →
        extractParams (reqSegsOf url) k = .ok ps →
        ("artifactPath", joinWith "/" ((reqSegsOf url).drop idx)) ∈ ps) := by
  refine ⟨?_, ?_, ?_, ?_⟩
  · intro k ps hk hex
    simp [normalize_url, hk, hex]
  · intro hne
    by_cases h0 : (finalKeys mapping url method).length = 0
    · refine ⟨"Cannot make an authorization decision. URL not found. URL: " ++ url, ?_⟩
      simp [normalize_url, h0]
    · have h2 : (finalKeys mapping url method).length > 1 := by omega
      refine ⟨"Cannot make an authorization decision. Multiple URLs found. URL: " ++ url, ?_⟩
      have hb : ((finalKeys mapping url method).length == 0) = false := by
        simp [h0]
      simp [normalize_url, hb, h2]
  · intro k e hk hex
    simp [normalize_url, hk, hex]
  · intro k idx ps hk hidx hex
    have hmem : (idx, "<artifactPath>") ∈ (urlSegments k).enum :=
      List.mk_mem_enum_iff_getElem?.mpr hidx
    exact extractParamsAux_greedy_mem (reqSegsOf url) (urlSegments k).enum [] ps idx hex hmem

/-- C6 (witness): the artifact scenario of the spec — the greedy placeholder
captures the multi-segment remainder folder/sub/file.yaml — and the
IndexError scenario: the sole greedy template of `exMappingOverrun` is
longer than the request /a, so resolution propagates the extraction
error. -/
theorem url_resolve_unique_survivor_witness :
    (normalize_url exMappingArtifacts "/vnfds/abc/artifacts/folder/sub/file.yaml" "GET"
      = .ok ("GET /vnfds/<id>/artifacts/<artifactPath>",
             [("id", "abc"), ("artifactPath", "folder/sub/file.yaml")])) ∧
    (normalize_url exMappingOverrun "/a" "GET"
      = .error (.pyError "IndexError: list index out of range")) :=
  ⟨(url_resolve_unique_survivor exMappingArtifacts
      "/vnfds/abc/artifacts/folder/sub/file.yaml" "GET").1
      "GET /vnfds/<id>/artifacts/<artifactPath>"
      [("id", "abc"), ("artifactPath", "folder/sub/file.yaml")]
      (by decide) (by decide),
   (url_resolve_unique_survivor exMappingOverrun "/a" "GET").2.2.1
      "GET /a/<x>/<artifactPath>" (.pyError "IndexError: list index out of range")
      (by decide) (by decide)⟩

/-- C7: internal-mode validation never returns an expired session.  With the
test bypass off, a session (present in the store, and in the cache iff
cached coherently) whose expiry has passed makes `_internal_authorize` fail
Unauthorized even on a cache hit; the expired cache entry is evicted with
the remove-if-present `dictPop` and the token is absent from the cache
afterwards (an expired store record is never re-inserted), so a subsequent
lookup cannot resurrect it. -/
theorem internal_authorize_rejects_expired (cfg : GlobalCfg) (st : St)
    (tid : String) (now : Nat) (s : Session)
    (hbp : truthy cfg.test_user_not_authorized = false)
    (hne : tid ≠ "")
    (hexp : s.expires < now)
    (hdb : st.db_tokens.find? (fun x => x.id == tid) = some s)
    (hcache : List.lookup tid st.tokens_cache = none ∨
              List.lookup tid st.tokens_cache = some s) :
    (internal_authorize cfg st (some tid) now).1
        = .error (.authEx "Expired Token or Authorization http header" 401) ∧
    (internal_authorize cfg st (some tid) now).2.tokens_cache
        = dictPop st.tokens_cache tid ∧
    List.lookup tid (internal_authorize cfg st (some tid) now).2.tokens_cache
        = none := by
  have htok : truthy (some tid) = true := by
    have hb : (tid == "") = false := beq_eq_false_iff_ne.mpr hne
    simp [truthy, hb]
  rcases hcache with hmiss | hhit
  · have hcore : internal_authorize_core st (some tid) now
        = (.error (.catchable "Expired Token or Authorization http header"), st) := by
      simp [internal_authorize_core, htok, hmiss, internal_authorize_db, hdb, hexp]
    have hpop : dictPop st.tokens_cache tid = st.tokens_cache :=
      dictPop_eq_self_of_lookup_none _ _ hmiss
    simp [internal_authorize, hcore, hbp, hpop, hmiss]
  · have hcore : internal_authorize_core st (some tid) now
        = (.error (.catchable "Expired Token or Authorization http header"),
           { st with tokens_cache := dictPop st.tokens_cache tid }) := by
      simp [internal_authorize_core, htok, hhit, hexp, internal_authorize_db, hdb]
    simp [internal_authorize, hcore, hbp, lookup_dictPop_self]

/-- C7 (witness): the expired session of `exStExpired` is rejected at
now = 10 and evicted from the cache. -/
theorem internal_authorize_rejects_expired_witness :
    (internal_authorize {} exStExpired (some "texp") 10).1
        = .error (.authEx "Expired Token or Authorization http header" 401) ∧
    (internal_authorize {} exStExpired (some "texp") 10).2.tokens_cache
        = dictPop exStExpired.tokens_cache "texp" ∧
    List.lookup "texp"
        (internal_authorize {} exStExpired (some "texp") 10).2.tokens_cache
        = none :=
  internal_authorize_rejects_expired {} exStExpired "texp" 10 exSessionExpired
    rfl (by decide) (by decide) (by decide) (Or.inr (by decide))

/-- C8 (counterexample): in delegated mode the session expiry is taken
verbatim from the backend token info; with a backend expiry of 0 and
now = 100, new_token returns a session with issued_at = 100 and expires = 0,
violating expires > issued_at. -/
theorem new_token_expires_invariant_cex :
    (new_token exEnvDelExpired {} none
        { username := some "alice", password := some "x" }
        { port := 7 } 100 "unused").1
      = .ok exSessionFromBackend ∧
    ¬ (exSessionFromBackend.issued_at < exSessionFromBackend.expires) := by
  decide

/-- C8 (amended): every session new_token creates in internal mode satisfies
expires > issued_at (expires = now + 3600); in delegated mode the invariant
holds whenever the backend token info omits expires (default now + 3600) or
supplies an expiry later than now — a backend expiry at or before now is
stored as-is and violates the invariant. -/
theorem new_token_expires_gt_issued (env : Env) (st : St)
    (session : Option Session) (indata : Indata) (remote : RemoteInfo)
    (now : Nat) (fid : String) (s : Session)
    (hok : (new_token env st session indata remote now fid).1 = .ok s)
    (hb : env.mode = Mode.internal ∨
          ∃ ti, env.backend_auth (delegated_auth_call session indata) = .ok ti ∧
                (ti.expires = none ∨ ∃ e, ti.expires = some e ∧ now < e)) :
    s.issued_at < s.expires := by
  cases hm : env.mode
  case internal =>
    unfold new_token at hok
    rw [hm] at hok
    dsimp only at hok
    unfold internal_new_token at hok
    cases hua : internal_user_auth env st session indata
    case error e => rw [hua] at hok; simp at hok
    case ok user =>
      rw [hua] at hok
      dsimp only at hok
      cases hrp : internal_resolve_project st indata user
      case error e => rw [hrp] at hok; simp at hok
      case ok pr =>
        rcases pr with ⟨pid, adm⟩
        rw [hrp] at hok
        simp only at hok
        rw [Except.ok.injEq] at hok
        rw [← hok]
        simp
  case keystone =>
    rcases hb with hmode | ⟨ti, hti, hexpi⟩
    · exact Mode.noConfusion (hm ▸ hmode)
    · unfold new_token at hok
      rw [hm] at hok
      dsimp only at hok
      unfold new_token_delegated at hok
      rw [hti] at hok
      dsimp only at hok
      split at hok
      · simp at hok
      · rw [Except.ok.injEq] at hok
        rw [← hok]
        rcases hexpi with hnone | ⟨e, hsome, hlt⟩
        · simp [hnone]
        · simp [hsome]
          omega

/-- C8 (witness): the internal-mode issuance of `exSessionIssued`
(issued_at = 100, expires = 3700) satisfies the invariant. -/
theorem new_token_expires_gt_issued_witness :
    exSessionIssued.issued_at < exSessionIssued.expires :=
  new_token_expires_gt_issued exEnvIntHash exStUsers none
    { username := some "alice", password := some "pw" } { port := 7 } 100
    "RANDTOK" exSessionIssued (by decide) (Or.inl rfl)

/-- C9: the permission-catalog build of init_db is deterministic — on
identical resource-map and role-map documents and identical stored role
records, the operation-to-allowed-roles index is the same whatever the clock
reads during the build (the timestamps written into the `_admin` fields are
among the fields the index build ignores), hence two runs on identical
inputs produce an identical index. -/
theorem init_db_index_deterministic (res : List (String × String))
    (roles : List RoleDoc) (recs : List RoleRecord) (t1 t2 : Nat) :
    init_db_index res roles recs t1 = init_db_index res roles recs t2 := by
  unfold init_db_index
  cases h : recs.isEmpty
  · simp [h]
  · simp only [h, if_pos, createRecords, buildPermissions]
    exact buildPermissions_createRecords_time _ _ t1 t2 _

/-- C10: in delegated mode, for a token id absent from the in-memory cache,
del_token performs the backend revocation first (the token is recorded
revoked in the resulting state) and only then raises NotFound from the
unconditional cache deletion — the operation errors with its side effect
already applied. -/
theorem del_token_revokes_before_notfound (env : Env) (st : St)
    (token : String)
    (hmode : env.mode = Mode.keystone)
    (hmiss : List.lookup token st.tokens_cache = none) :
    (del_token env st token).1
        = .error (.authEx ("Token " ++ token ++ " not found") 404) ∧
    token ∈ (del_token env st token).2.backend_revoked := by
  unfold del_token
  rw [hmode]
  simp [hmiss]

/-- C10 (witness): del_token on an empty cache errors NotFound with the
token already revoked at the backend. -/
theorem del_token_revokes_before_notfound_witness :
    (del_token exEnvKeystone {} "t").1
        = .error (.authEx ("Token " ++ "t" ++ " not found") 404) ∧
    "t" ∈ (del_token exEnvKeystone {} "t").2.backend_revoked :=
  del_token_revokes_before_notfound exEnvKeystone {} "t" rfl rfl

end OsmNbi
